import Mathlib

/-!
Verification of the session-lifecycle harness in src/main.js.

The development shallowly embeds the configuration resolution (lines 28..37),
setup and its assertions (lines 44..91), the orchestrator main (lines 105..148),
takeScreenshot (lines 155..163), askUser together with the process-level
uncaughtException handler (lines 171..193 and 209..212), and
waitEntirePageToLoad (lines 200..207).

External collaborators (the browser engine, the filesystem, the readline
device) are modelled by explicit outcome flags and by event traces listing the
calls the code makes, in order.
-/

namespace PlaywrightBase

/-- JavaScript truthiness of an environment slot: an absent variable and the
empty string are falsy, every other string is truthy. -/
def jsTruthy : Option String → Bool
  | none => false
  | some s => !(s == "")

/-- The JavaScript idiom x || d for an optional string x: the default is used
when x is absent or empty. -/
def orDefault (v : Option String) (d : String) : String :=
  match v with
  | none => d
  | some s => if s == "" then d else s

/-- Drop leading whitespace, as parseInt does before reading the number. -/
def dropLeadingWS : List Char → List Char
  | [] => []
  | c :: cs => if c.isWhitespace then dropLeadingWS cs else c :: cs

/-- Accumulate the longest prefix of decimal digits; none when no digit was
read, which models the NaN result of parseInt. -/
def digitsVal : List Char → Option Nat → Option Nat
  | [], acc => acc
  | c :: cs, acc =>
      if c.isDigit then digitsVal cs (some ((acc.getD 0) * 10 + (c.toNat - 48)))
      else acc

/-- Model of JavaScript parseInt(s, 10): skip leading whitespace, read an
optional sign, then the longest prefix of decimal digits; none models NaN. -/
def jsParseInt (s : String) : Option Int :=
  match dropLeadingWS s.data with
  | [] => none
  | c :: cs =>
      if c == '-' then (digitsVal cs none).map (fun n => -(n : Int))
      else if c == '+' then (digitsVal cs none).map (fun n => (n : Int))
      else (digitsVal (c :: cs) none).map (fun n => (n : Int))

/-- The idiom parseInt(v, 10) || d of main.js lines 34..35: an absent variable,
a string with no leading integer, and a string parsing to 0 all fall back to
the default. -/
def resolveIntDefault (v : Option String) (d : Int) : Int :=
  match v with
  | none => d
  | some s =>
      match jsParseInt s with
      | none => d
      | some n => if n == 0 then d else n

/-- The raw environment surface read by main.js: each field is the value of the
process environment variable of the same name, absent or a string. -/
structure Env where
  demoMode : Option String
  logsFolderPath : Option String
  screenshotFolderPath : Option String
  baseUrl : Option String
  defaultAdditionalWaitTimeSeconds : Option String
  questionTimeoutSeconds : Option String
  userAgent : Option String
  userDataDir : Option String
  deriving DecidableEq, Repr

/-- main.js line 28: DEMO_MODE is true unless the variable is exactly false. -/
def DEMO_MODE (e : Env) : Bool := e.demoMode != some "false"

/-- main.js line 30. -/
def LOGS_FOLDER_PATH (e : Env) : String :=
  orDefault e.logsFolderPath "data/logs" ++ "/"

/-- main.js line 31. -/
def SCREENSHOT_FOLDER_PATH (e : Env) : String :=
  orDefault e.screenshotFolderPath "data/screenshots" ++ "/"

/-- main.js line 33: the base URL with a trailing slash when the variable is
truthy, null otherwise. -/
def BASE_URL (e : Env) : Option String :=
  if jsTruthy e.baseUrl then some ((e.baseUrl.getD "") ++ "/") else none

/-- main.js line 34. -/
def DEFAULT_ADDITIONAL_WAIT_TIME_SECONDS (e : Env) : Int :=
  resolveIntDefault e.defaultAdditionalWaitTimeSeconds 3

/-- main.js line 35. -/
def QUESTION_TIMEOUT_SECONDS (e : Env) : Int :=
  resolveIntDefault e.questionTimeoutSeconds 30

/-- main.js line 36. -/
def USER_AGENT (e : Env) : String :=
  orDefault e.userAgent "Mozilla/5.0 (Windows NT 10.0; Win64; x64) AppleWebKit/537.36 (KHTML, like Gecko) Chrome/58.0.3029.110 Safari/537.3"

/-- main.js line 37. -/
def USER_DATA_DIR (e : Env) : Option String := e.userDataDir

/-- A JavaScript value as passed to assertEnvVariableValue: null, a string, or
a number. -/
inductive JsValue
  | vNull
  | vStr (s : String)
  | vNum (n : Int)
  deriving DecidableEq, Repr

/-- JavaScript truthiness of a value: null, the empty string and 0 are falsy. -/
def JsValue.truthy : JsValue → Bool
  | .vNull => false
  | .vStr s => !(s == "")
  | .vNum n => !(n == 0)

/-- Lift an optional string to the JavaScript value it denotes. -/
def optToJs : Option String → JsValue
  | none => .vNull
  | some s => .vStr s

/-- main.js lines 67..77: throw when the value is falsy and required; the log
lines are omitted from the model. The source defaults required to true; the
model passes the argument explicitly at every call site. -/
def assertEnvVariableValue (v : JsValue) (name : String) (required : Bool) :
    Except String Unit :=
  if !v.truthy && required then
    .error (name ++ " environment variable is not set.")
  else
    .ok ()

/-- main.js lines 84..91: throw when the folder path is falsy; the mkdirSync
call is an external filesystem effect taken to succeed, and the log line is
omitted. -/
def assertFolderPathValue (v : String) (name : String) : Except String Unit :=
  if v == "" then .error (name ++ " is not set.") else .ok ()

/-- main.js lines 44..59: the setup sequence; loggingSetup is an external
collaborator with no modelled effect. The first failing assertion aborts the
rest, exactly as a thrown error would. -/
def setup (e : Env) : Except String Unit :=
  match assertFolderPathValue (LOGS_FOLDER_PATH e) "LOGS_FOLDER_PATH" with
  | .error msg => .error msg
  | .ok _ =>
  match assertFolderPathValue (SCREENSHOT_FOLDER_PATH e) "SCREENSHOT_FOLDER_PATH" with
  | .error msg => .error msg
  | .ok _ =>
  match assertEnvVariableValue (optToJs (BASE_URL e)) "BASE_URL" true with
  | .error msg => .error msg
  | .ok _ =>
  match assertEnvVariableValue (.vStr (USER_AGENT e)) "USER_AGENT" true with
  | .error msg => .error msg
  | .ok _ =>
  match assertEnvVariableValue (.vNum (DEFAULT_ADDITIONAL_WAIT_TIME_SECONDS e))
      "DEFAULT_ADDITIONAL_WAIT_TIME_SECONDS" true with
  | .error msg => .error msg
  | .ok _ =>
  assertEnvVariableValue (optToJs (USER_DATA_DIR e)) "USER_DATA_DIR" false

/-- Replace every colon and every dot by a dash, the regular expression
replace of main.js line 156. -/
def sanitizeChar (c : Char) : Char :=
  if c == ':' || c == '.' then '-' else c

/-- The replace([:.] to dash) applied to a whole string, main.js line 156. -/
def replaceColonsDots (s : String) : String :=
  String.mk (s.data.map sanitizeChar)

/-- main.js lines 157..159: the screenshot file name built from the demo flag,
the label argument and the already sanitized timestamp. -/
def screenshotFileName (demoMode : Bool) (pfx : String) (isoDateTime : String) :
    String :=
  (if demoMode then "DEMO-" else "")
    ++ (if pfx == "" then pfx else pfx ++ "-")
    ++ "screenshot-" ++ isoDateTime ++ ".png"

/-- The outcome of one call to takeScreenshot: the written path, or the error
it threw. -/
inductive ShotResult
  | taken (path : String)
  | threw (msg : String)
  deriving DecidableEq, Repr

/-- main.js lines 155..163. The page argument is optional because main calls
takeScreenshot in its catch block, where the page may still be undefined; a
property access on undefined throws a TypeError in JavaScript, which the model
returns as an error. The screenshotOk flag models the outcome of the external
page.screenshot call, and nowIso the ISO-8601 rendering of the current clock
value. The source joins the folder and the file name with path.join, which,
the folder ending in a slash, is plain concatenation. -/
def takeScreenshot (e : Env) (page : Option Unit) (screenshotOk : Bool)
    (pfx : String) (nowIso : String) : ShotResult :=
  let isoDateTime := replaceColonsDots nowIso
  let fileName := screenshotFileName (DEMO_MODE e) pfx isoDateTime
  match page with
  | none => .threw "TypeError: Cannot read properties of undefined (reading screenshot)"
  | some _ =>
      if screenshotOk then .taken (SCREENSHOT_FOLDER_PATH e ++ fileName)
      else .threw "screenshot failed"

/-- Modelled from the spec: the diagnostic artifact name, an optional DEMO tag,
an optional label segment, the literal screenshot marker, the ISO timestamp
with every colon and every dot replaced by a dash, then the png suffix. -/
def specScreenshotName (demoTag : Bool) (label : String) (nowIso : String) :
    String :=
  (if demoTag then "DEMO-" else "")
    ++ (if label == "" then "" else label ++ "-")
    ++ "screenshot-"
    ++ String.mk (nowIso.data.map (fun c => if c == ':' || c == '.' then '-' else c))
    ++ ".png"

/-- One page wait performed by the readiness synchronizer. -/
inductive WaitAction
  | waitForLoadState (state : String)
  | waitForTimeout (ms : Int)
  deriving DecidableEq, Repr

/-- main.js lines 200..207 as the ordered sequence of page waits the function
awaits before returning; the console.time bookkeeping is omitted. -/
def waitEntirePageToLoad (additionalWaitTimeSeconds : Int) : List WaitAction :=
  [ .waitForLoadState "domcontentloaded"
  , .waitForLoadState "load"
  , .waitForLoadState "networkidle"
  , .waitForTimeout (1000 * additionalWaitTimeSeconds) ]

/-- Modelled from the spec: the three readiness signals in their stated order,
followed by the additional settle wait, given in milliseconds. -/
def specReadinessTrace (settleMs : Int) : List WaitAction :=
  [ .waitForLoadState "domcontentloaded"
  , .waitForLoadState "load"
  , .waitForLoadState "networkidle"
  , .waitForTimeout settleMs ]

/-- Outcomes of the external calls main performs, fixing one concrete run of
the orchestrator: whether the launch, the page creation, the navigation, the
readiness wait, the callback, the screenshot and the two closes succeed. -/
structure World where
  launchOk : Bool
  newPageOk : Bool
  gotoOk : Bool
  waitOk : Bool
  processingOk : Bool
  screenshotOk : Bool
  pageCloseOk : Bool
  contextCloseOk : Bool
  deriving DecidableEq, Repr

/-- One observable step of main: a call to an external collaborator, a log of
the caught error, or the final exit. -/
inductive Ev
  | launchPersistentContext (dir : String)
  | launch
  | newPage
  | goto (url : String)
  | pageWait (a : WaitAction)
  | processing
  | logError
  | screenshotSaved (path : String)
  | closeReadline
  | pageClose
  | contextClose
  | exitZero
  deriving DecidableEq, Repr

/-- main.js lines 120..124: persistent context when USER_DATA_DIR is truthy,
plain launch otherwise. -/
def launchEv (e : Env) : Ev :=
  if jsTruthy (USER_DATA_DIR e) then
    .launchPersistentContext ((USER_DATA_DIR e).getD "")
  else
    .launch

/-- The tail of the try block after the page exists, main.js lines 128..132:
the navigation, then, when navigation and the readiness wait both succeed, the
four page waits and the callback invocation. On a navigation or wait failure
the later steps do not run. -/
def tryTail (e : Env) (w : World) : List Ev :=
  Ev.goto ((BASE_URL e).getD "") ::
    (if w.gotoOk && w.waitOk then
      (waitEntirePageToLoad (DEFAULT_ADDITIONAL_WAIT_TIME_SECONDS e)).map Ev.pageWait
        ++ [Ev.processing]
    else [])

/-- The error pending at the end of the try block once the page exists. -/
def tryErr (w : World) : Option String :=
  if !w.gotoOk then some "goto failed"
  else if !w.waitOk then some "page load timeout"
  else if !w.processingOk then some "processing failed"
  else none

/-- Result of the try block of main: the calls it made, whether the context and
the page variables were assigned, and the pending error if one was thrown. -/
structure TryResult where
  events : List Ev
  contextDefined : Bool
  pageDefined : Bool
  err : Option String
  deriving DecidableEq, Repr

/-- main.js lines 109..134, the try block: setup, session acquisition,
navigation, readiness wait, then the caller callback; the first failing step
short-circuits the rest, leaving the local context and page variables
undefined when the failure precedes their assignment. -/
def mainTry (e : Env) (w : World) : TryResult :=
  match setup e with
  | .error msg => ⟨[], false, false, some msg⟩
  | .ok _ =>
      if !w.launchOk then
        ⟨[launchEv e], false, false, some "launch failed"⟩
      else if !w.newPageOk then
        ⟨[launchEv e, .newPage], true, false, some "newPage failed"⟩
      else
        ⟨launchEv e :: Ev.newPage :: tryTail e w, true, true, tryErr w⟩

/-- main.js lines 136..138, the catch block: log the error, then call
takeScreenshot on the (possibly undefined) page with the label error; a throw
out of takeScreenshot becomes the pending error of the catch block. -/
def mainCatch (e : Env) (w : World) (pageDefined : Bool) (nowIso : String) :
    List Ev × Option String :=
  match takeScreenshot e (if pageDefined then some () else none) w.screenshotOk
      "error" nowIso with
  | .taken p => ([Ev.logError, Ev.screenshotSaved p], none)
  | .threw msg => ([Ev.logError], some msg)

/-- Result of the finally block: the calls it made and the error it threw, if
any; reaching the end of the block means process.exit(0) ran. -/
structure FinallyResult where
  events : List Ev
  err : Option String
  deriving DecidableEq, Repr

/-- main.js lines 140..147, the finally block: close the readline interface,
then page.close, then context.close, then process.exit(0). In JavaScript a
close call on an undefined page or context throws a TypeError, and a throw
anywhere in the block skips the rest of the block, including the exit call;
no close failure is caught inside the block. -/
def mainFinally (w : World) (contextDefined pageDefined : Bool) : FinallyResult :=
  if !pageDefined then
    ⟨[Ev.closeReadline],
      some "TypeError: Cannot read properties of undefined (reading close)"⟩
  else if !w.pageCloseOk then
    ⟨[Ev.closeReadline, Ev.pageClose], some "page close failed"⟩
  else if !contextDefined then
    ⟨[Ev.closeReadline, Ev.pageClose],
      some "TypeError: Cannot read properties of undefined (reading close)"⟩
  else if !w.contextCloseOk then
    ⟨[Ev.closeReadline, Ev.pageClose, Ev.contextClose],
      some "context close failed"⟩
  else
    ⟨[Ev.closeReadline, Ev.pageClose, Ev.contextClose, Ev.exitZero], none⟩

/-- How the main invocation ends: process.exit(0) ran, or the promise of main
rejected with the given error. -/
inductive MainOutcome
  | exitedZero
  | rejected (msg : String)
  deriving DecidableEq, Repr

/-- The events of the catch block: empty when the try block left no pending
error. -/
def catchEvents (e : Env) (w : World) (t : TryResult) (nowIso : String) :
    List Ev :=
  match t.err with
  | some _ => (mainCatch e w t.pageDefined nowIso).1
  | none => []

/-- main.js lines 105..148, whole orchestrator: try, catch on a pending error,
then finally. When the finally block completes, process.exit(0) terminates the
process with code 0 even if the catch block left its own pending error; when
the finally block throws, the exit call is never reached and the promise of
main rejects with the error thrown in the finally block, which supersedes any
pending one. -/
def mainRun (e : Env) (w : World) (nowIso : String) : List Ev × MainOutcome :=
  let t := mainTry e w
  let f := mainFinally w t.contextDefined t.pageDefined
  (t.events ++ catchEvents e w t nowIso ++ f.events,
   match f.err with
   | some msg => .rejected msg
   | none => .exitedZero)

/-- State of the promise returned by askUser: it either is still pending or
was resolved with an answer; the executor of main.js lines 187..192 never
rejects it. -/
inductive PromiseState
  | pending
  | resolved (answer : String)
  deriving DecidableEq, Repr

/-- State of one askUser call together with the process-level pieces it
touches: the userAnswer variable of line 174, whether the abort controller of
line 172 was aborted, the promise of line 187, the errors surfaced as
process-level uncaught exceptions, whether the uncaughtException handler of
lines 209..212 closed the readline interface, and whether the readline
question of line 188 is still waiting for input. -/
structure AskState where
  userAnswer : Option String
  aborted : Bool
  promise : PromiseState
  uncaughtErrors : List String
  readlineClosed : Bool
  questionActive : Bool
  deriving DecidableEq, Repr

/-- The state right after askUser registered its listener, its timer and its
readline question. -/
def askUserInit : AskState :=
  ⟨none, false, .pending, [], false, true⟩

/-- An event of the race inside askUser: the operator answer is delivered by
readline, or the timer of line 181 fires. The order of the events in a
schedule is their order in real time. -/
inductive AskEv
  | answer (s : String)
  | timerFires
  deriving DecidableEq, Repr

/-- The answer slot of line 182 is falsy when no answer was stored yet and
also when the stored answer is the empty string. -/
def jsFalsyAnswer : Option String → Bool
  | none => true
  | some s => s == ""

/-- One scheduler step of askUser (main.js lines 171..193 with the handler of
lines 209..212). An answer delivery runs the question callback of lines
188..191, storing the answer and resolving the promise; it can only happen
while the readline question is still active. The timer callback of lines
181..185 aborts the controller when userAnswer is falsy; the abort listener of
lines 176..179 then aborts again (a no-op) and throws, and since the throw
happens inside an abort-event listener it surfaces as a process-level
uncaughtException, whose handler closes the readline interface; the abort also
cancels the readline question, so the promise is never settled by it. -/
def askUserStep (st : AskState) (ev : AskEv) : AskState :=
  match ev with
  | .answer s =>
      if st.questionActive then
        { st with
            userAnswer := some s
            promise := match st.promise with
              | .pending => .resolved s
              | p => p
            questionActive := false }
      else st
  | .timerFires =>
      if jsFalsyAnswer st.userAnswer then
        { st with
            aborted := true
            uncaughtErrors := st.uncaughtErrors ++ ["The question timed out..."]
            readlineClosed := true
            questionActive := false }
      else st

/-- Run one askUser call under a schedule of race events. -/
def askUserRun (evs : List AskEv) : AskState :=
  evs.foldl askUserStep askUserInit

/-- A well-formed environment: only the base URL is set. -/
def goodEnv : Env :=
  ⟨none, none, none, some "http://example.test", none, none, none, none⟩

/-- An environment in which the BASE_URL variable is absent. -/
def noBaseEnv : Env :=
  ⟨none, none, none, none, none, none, none, none⟩

/-- A run in which every external call succeeds. -/
def allOkWorld : World :=
  ⟨true, true, true, true, true, true, true, true⟩

/-- A sample clock value, already rendered in ISO-8601. -/
def isoSample : String := "2024-01-02T03:04:05.678Z"

/-- A run in which only the page close fails. -/
def pageCloseFailWorld : World := { allOkWorld with pageCloseOk := false }

/-- A run in which the callback raises and the failure screenshot raises. -/
def doubleFailWorld : World :=
  { allOkWorld with processingOk := false, screenshotOk := false }

/-- An environment selecting 0 for both numeric variables. -/
def zeroEnv : Env :=
  { goodEnv with
      defaultAdditionalWaitTimeSeconds := some "0"
      questionTimeoutSeconds := some "0" }

/-- Appending a slash leaves a string that is never empty, so the two folder
assertions of setup can never fire. -/
theorem string_append_slash_ne_empty (s : String) : ((s ++ "/") == "") = false := by
  rw [beq_eq_false_iff_ne]
  intro h
  have h2 : (s ++ "/").data = ("" : String).data := congrArg String.data h
  rcases s with ⟨l⟩
  simp [String.data] at h2

/-- Characterization of the try block once setup, the launch and the page
creation succeed: context and page are assigned and the remaining steps follow
tryTail. -/
theorem mainTry_acquired (e : Env) (w : World) (hs : setup e = Except.ok ())
    (hl : w.launchOk = true) (hn : w.newPageOk = true) :
    mainTry e w = ⟨launchEv e :: Ev.newPage :: tryTail e w, true, true, tryErr w⟩ := by
  simp [mainTry, hs, hl, hn]

/-- The launch step is never the session close step. -/
theorem launchEv_ne_contextClose (e : Env) : ¬ Ev.contextClose = launchEv e := by
  unfold launchEv
  split <;> simp

/-- The try tail never emits a session close. -/
theorem contextClose_not_mem_tryTail (e : Env) (w : World) :
    Ev.contextClose ∉ tryTail e w := by
  unfold tryTail
  split <;> simp [waitEntirePageToLoad]

/-- The catch block never emits a context close. -/
theorem contextClose_not_mem_catchEvents (e : Env) (w : World) (t : TryResult)
    (nowIso : String) : Ev.contextClose ∉ catchEvents e w t nowIso := by
  unfold catchEvents
  split
  · unfold mainCatch
    split <;> simp
  · simp

/-- The try tail never opens a second page. -/
theorem newPage_not_mem_tryTail (e : Env) (w : World) :
    Ev.newPage ∉ tryTail e w := by
  unfold tryTail
  split <;> simp [waitEntirePageToLoad]

/-- The catch block never opens a page. -/
theorem newPage_not_mem_catchEvents (e : Env) (w : World) (t : TryResult)
    (nowIso : String) : Ev.newPage ∉ catchEvents e w t nowIso := by
  unfold catchEvents
  split
  · unfold mainCatch
    split <;> simp
  · simp

/-- The finally block never opens a page. -/
theorem newPage_not_mem_finally (w : World) (c p : Bool) :
    Ev.newPage ∉ (mainFinally w c p).events := by
  cases p <;> cases c <;> cases hq : w.pageCloseOk <;> cases hr : w.contextCloseOk <;>
    simp [mainFinally, hq, hr]

/-- The launch step is not the page opening step. -/
theorem launchEv_ne_newPage (e : Env) : launchEv e ≠ Ev.newPage := by
  unfold launchEv
  split <;> simp

/-- The finally block when the page was assigned but its close fails: the
session close is skipped and the page close error escapes the block. -/
theorem mainFinally_pageFail (w : World) (hp : w.pageCloseOk = false) :
    mainFinally w true true
      = ⟨[Ev.closeReadline, Ev.pageClose], some "page close failed"⟩ := by
  simp [mainFinally, hp]

/-- The finally block when the page and the context were assigned and both
closes succeed: all three resources are closed and the exit is reached. -/
theorem mainFinally_ok (w : World) (hp : w.pageCloseOk = true)
    (hc : w.contextCloseOk = true) :
    mainFinally w true true
      = ⟨[Ev.closeReadline, Ev.pageClose, Ev.contextClose, Ev.exitZero], none⟩ := by
  simp [mainFinally, hp, hc]

/-- The sanitized characters are never a colon or a dot. -/
theorem sanitizeChar_no_colon_dot (c : Char) :
    (!(sanitizeChar c == ':') && !(sanitizeChar c == '.')) = true := by
  unfold sanitizeChar
  rcases h : (c == ':' || c == '.') with _ | _
  · simp only [Bool.or_eq_false_iff] at h
    simp [h.1, h.2]
  · simp [h]

/-- No character of a sanitized list is a colon or a dot. -/
theorem all_map_sanitize (l : List Char) :
    (l.map sanitizeChar).all (fun c => !(c == ':') && !(c == '.')) = true := by
  induction l with
  | nil => rfl
  | cons c cs ih =>
      simp only [List.map_cons, List.all_cons, ih, Bool.and_true]
      exact sanitizeChar_no_colon_dot c

/-- C2, counterexample: in the error path of the orchestrator with no page
available (here: page creation failed before a page existed), the capture is
not skipped with a log message; takeScreenshot throws a TypeError, and inside
main the catch block is left with that pending error instead of a skip. -/
theorem failure_capture_raises_cex :
    takeScreenshot goodEnv none true "error" isoSample
      = ShotResult.threw "TypeError: Cannot read properties of undefined (reading screenshot)"
    ∧ mainCatch goodEnv { allOkWorld with newPageOk := false } false isoSample
      = ([Ev.logError],
         some "TypeError: Cannot read properties of undefined (reading screenshot)") := by
  exact ⟨rfl, rfl⟩

/-- C2, amended: the failure capture is not total. When a page exists and the
engine screenshot succeeds the capture produces the snapshot; when the engine
screenshot fails the error propagates out of the capture; and when no page
exists the capture raises a TypeError that propagates out of the catch block
of the orchestrator, so it is neither skipped nor logged as a skip. -/
theorem failure_capture_behaviour (e : Env) (w : World) (ok : Bool)
    (pfx nowIso : String) :
    takeScreenshot e none ok pfx nowIso
      = ShotResult.threw "TypeError: Cannot read properties of undefined (reading screenshot)"
    ∧ mainCatch e w false nowIso
      = ([Ev.logError],
         some "TypeError: Cannot read properties of undefined (reading screenshot)")
    ∧ takeScreenshot e (some ()) true pfx nowIso
      = ShotResult.taken (SCREENSHOT_FOLDER_PATH e
          ++ screenshotFileName (DEMO_MODE e) pfx (replaceColonsDots nowIso))
    ∧ takeScreenshot e (some ()) false pfx nowIso
      = ShotResult.threw "screenshot failed" := by
  exact ⟨rfl, rfl, rfl, rfl⟩

/-- C3: when no operator answer arrives and the timer fires, the error thrown
by the abort listener surfaces as a process-level uncaught exception whose
handler closes the readline interface, while the promise returned to the
caller of askUser never settles: the prompt-timeout failure is never delivered
to the caller and the channel does not remain usable. -/
theorem prompt_timeout_never_delivered :
    (askUserRun [AskEv.timerFires]).promise = PromiseState.pending
    ∧ (askUserRun [AskEv.timerFires]).uncaughtErrors = ["The question timed out..."]
    ∧ (askUserRun [AskEv.timerFires]).readlineClosed = true
    ∧ (askUserRun [AskEv.timerFires]).questionActive = false := by
  exact ⟨rfl, rfl, rfl, rfl⟩

/-- C4, counterexample: an operator answer that is the empty string arrives
before the timeout and resolves the call, yet the later firing of the timer is
not a no-op: the guard of the timer callback tests JavaScript truthiness of
the stored answer, the empty string is falsy, so the controller is aborted,
the timeout error surfaces as an uncaught exception and the readline channel
is closed. -/
theorem prompt_race_empty_answer_cex :
    (askUserRun [AskEv.answer "", AskEv.timerFires]).promise
      = PromiseState.resolved ""
    ∧ (askUserRun [AskEv.answer "", AskEv.timerFires]).uncaughtErrors
      = ["The question timed out..."]
    ∧ (askUserRun [AskEv.answer "", AskEv.timerFires]).readlineClosed = true := by
  exact ⟨rfl, rfl, rfl⟩

/-- C4, amended: when a non-empty answer arrives strictly before the timeout,
the call resolves with that answer and the later firing of the timer has no
observable effect; and an answer arriving after the timeout has fired does not
resolve the call, whose promise stays pending. The empty-string answer is the
exception recorded by the counterexample. -/
theorem prompt_race_resolution_amended (s : String) (h : s ≠ "") :
    askUserRun [AskEv.answer s, AskEv.timerFires]
      = ⟨some s, false, PromiseState.resolved s, [], false, false⟩
    ∧ (askUserRun [AskEv.timerFires, AskEv.answer s]).promise
      = PromiseState.pending := by
  constructor
  · simp [askUserRun, askUserStep, askUserInit, jsFalsyAnswer, h]
  · simp [askUserRun, askUserStep, askUserInit, jsFalsyAnswer]

/-- C4, witness for the amended statement at the concrete answer yes. -/
theorem prompt_race_resolution_amended_witness :
    askUserRun [AskEv.answer "yes", AskEv.timerFires]
      = ⟨some "yes", false, PromiseState.resolved "yes", [], false, false⟩
    ∧ (askUserRun [AskEv.timerFires, AskEv.answer "yes"]).promise
      = PromiseState.pending :=
  prompt_race_resolution_amended "yes" (by decide)

/-- C6: the readiness synchronizer awaits the structural parse signal, the
full load signal and the network idle signal, in that order with no early
exit, then the additional settle wait of 1000 times the configured seconds;
when the wait-duration variable is absent the configured value is 3 seconds,
so the settle wait is 3000 milliseconds. -/
theorem readiness_ordering (e : Env) (s : Int) :
    waitEntirePageToLoad s = specReadinessTrace (1000 * s)
    ∧ DEFAULT_ADDITIONAL_WAIT_TIME_SECONDS
        { e with defaultAdditionalWaitTimeSeconds := none } = 3
    ∧ waitEntirePageToLoad
        (DEFAULT_ADDITIONAL_WAIT_TIME_SECONDS
          { e with defaultAdditionalWaitTimeSeconds := none })
      = specReadinessTrace 3000 := by
  refine ⟨rfl, rfl, ?_⟩
  show waitEntirePageToLoad 3 = specReadinessTrace 3000
  decide

/-- C7: for every demo flag, label and clock rendering, the produced file is
placed under the configured screenshot directory and its name is exactly the
optional DEMO tag, the optional label segment, the screenshot marker, the
ISO-8601 rendering with every colon and dot replaced by a dash, and the png
suffix; the sanitized timestamp segment holds no colon and no dot. -/
theorem screenshot_naming (e : Env) (pfx nowIso : String) :
    takeScreenshot e (some ()) true pfx nowIso
      = ShotResult.taken (SCREENSHOT_FOLDER_PATH e
          ++ specScreenshotName (DEMO_MODE e) pfx nowIso)
    ∧ ((replaceColonsDots nowIso).data.all
        (fun c => !(c == ':') && !(c == '.'))) = true := by
  constructor
  · by_cases h : pfx = ""
    · subst h
      rfl
    · have hb : (pfx == "") = false := beq_eq_false_iff_ne.mpr h
      simp only [takeScreenshot, screenshotFileName, specScreenshotName,
        replaceColonsDots, hb]
      rfl
  · show ((nowIso.data.map sanitizeChar).all
      (fun c => !(c == ':') && !(c == '.'))) = true
    exact all_map_sanitize nowIso.data

/-- C10: a numeric environment variable that is missing, does not parse to an
integer, or parses to 0 resolves to the built-in default, 3 seconds for the
additional wait and 30 seconds for the question timeout; in particular the
explicit string 0 cannot select a zero duration. -/
theorem numeric_default_fallback (e : Env)
    (h3 : e.defaultAdditionalWaitTimeSeconds = none
      ∨ ∃ s, e.defaultAdditionalWaitTimeSeconds = some s
          ∧ (jsParseInt s = none ∨ jsParseInt s = some 0))
    (h30 : e.questionTimeoutSeconds = none
      ∨ ∃ s, e.questionTimeoutSeconds = some s
          ∧ (jsParseInt s = none ∨ jsParseInt s = some 0)) :
    DEFAULT_ADDITIONAL_WAIT_TIME_SECONDS e = 3
    ∧ QUESTION_TIMEOUT_SECONDS e = 30 := by
  constructor
  · unfold DEFAULT_ADDITIONAL_WAIT_TIME_SECONDS resolveIntDefault
    rcases h3 with h | ⟨s, hs, h | h⟩
    · simp [h]
    · simp [hs, h]
    · simp [hs, h]
  · unfold QUESTION_TIMEOUT_SECONDS resolveIntDefault
    rcases h30 with h | ⟨s, hs, h | h⟩
    · simp [h]
    · simp [hs, h]
    · simp [hs, h]

/-- C10, witness: both variables set to the string 0 still resolve to the
defaults 3 and 30. -/
theorem numeric_default_fallback_witness :
    DEFAULT_ADDITIONAL_WAIT_TIME_SECONDS zeroEnv = 3
    ∧ QUESTION_TIMEOUT_SECONDS zeroEnv = 30 :=
  numeric_default_fallback zeroEnv
    (Or.inr ⟨"0", rfl, Or.inr (by decide)⟩)
    (Or.inr ⟨"0", rfl, Or.inr (by decide)⟩)

/-- C5, counterexample: an environment with the identity string and the wait
duration variables both absent does not make setup raise; setup succeeds,
because both parameters resolve to built-in defaults before the check runs,
and the run proceeds to acquire a session. -/
theorem validation_completeness_cex :
    goodEnv.userAgent = none
    ∧ goodEnv.defaultAdditionalWaitTimeSeconds = none
    ∧ setup goodEnv = Except.ok ()
    ∧ Ev.launch ∈ (mainRun goodEnv allOkWorld isoSample).1 :=
  ⟨rfl, rfl, rfl, by decide⟩

/-- C5, amended: of the three parameters named by the claim only the base URL
can be absent after resolution. When the BASE_URL variable is missing or
empty, setup raises an error naming BASE_URL, and main performs no launch:
the whole run consists of the error log of the catch block and the readline
close of the finally block, so the raise happens before any session is
acquired. -/
theorem validation_base_url_only (e : Env) (w : World) (nowIso : String)
    (h : jsTruthy e.baseUrl = false) :
    setup e = Except.error "BASE_URL environment variable is not set."
    ∧ (mainRun e w nowIso).1 = [Ev.logError, Ev.closeReadline] := by
  have h1 : BASE_URL e = none := by simp [BASE_URL, h]
  have hs : setup e = Except.error "BASE_URL environment variable is not set." := by
    simp [setup, assertFolderPathValue, LOGS_FOLDER_PATH, SCREENSHOT_FOLDER_PATH,
      string_append_slash_ne_empty, h1, optToJs, assertEnvVariableValue,
      JsValue.truthy]
  refine ⟨hs, ?_⟩
  simp [mainRun, mainTry, hs, catchEvents, mainCatch, takeScreenshot, mainFinally]

/-- C5, witness for the amended statement at an environment with no BASE_URL. -/
theorem validation_base_url_only_witness :
    setup noBaseEnv = Except.error "BASE_URL environment variable is not set."
    ∧ (mainRun noBaseEnv allOkWorld isoSample).1 = [Ev.logError, Ev.closeReadline] :=
  validation_base_url_only noBaseEnv allOkWorld isoSample (by decide)

/-- C1, counterexample: in a run where closing the page raises, the close of
the session is never attempted and the failure is re-raised out of main
instead of being logged and swallowed. -/
theorem teardown_totality_cex :
    Ev.pageClose ∈ (mainRun goodEnv pageCloseFailWorld isoSample).1
    ∧ Ev.contextClose ∉ (mainRun goodEnv pageCloseFailWorld isoSample).1
    ∧ (mainRun goodEnv pageCloseFailWorld isoSample).2
      = MainOutcome.rejected "page close failed" := by
  decide

/-- C1, amended: teardown closes the prompt channel, then the page, then the
session, in that order, but it is not total: the closes are unguarded, so on
every run that acquired a page, a failure raised while closing the page
prevents the close attempt on the session and propagates out of main rather
than being logged and not re-raised. -/
theorem teardown_short_circuit (e : Env) (w : World) (nowIso : String)
    (hs : setup e = Except.ok ()) (hl : w.launchOk = true) (hn : w.newPageOk = true)
    (hp : w.pageCloseOk = false) :
    Ev.closeReadline ∈ (mainRun e w nowIso).1
    ∧ Ev.pageClose ∈ (mainRun e w nowIso).1
    ∧ Ev.contextClose ∉ (mainRun e w nowIso).1
    ∧ (mainRun e w nowIso).2 = MainOutcome.rejected "page close failed" := by
  have ht := mainTry_acquired e w hs hl hn
  have h2 := contextClose_not_mem_catchEvents e w
    ⟨launchEv e :: Ev.newPage :: tryTail e w, true, true, tryErr w⟩ nowIso
  have hf := mainFinally_pageFail w hp
  refine ⟨?_, ?_, ?_, ?_⟩
  · simp [mainRun, ht, hf]
  · simp [mainRun, ht, hf]
  · simp [mainRun, ht, hf, List.mem_append, launchEv_ne_contextClose e,
      contextClose_not_mem_tryTail e w, h2]
  · simp [mainRun, ht, hf]

/-- C1, witness for the amended statement: a concrete run whose page close
fails. -/
theorem teardown_short_circuit_witness :
    Ev.closeReadline ∈ (mainRun goodEnv pageCloseFailWorld isoSample).1
    ∧ Ev.pageClose ∈ (mainRun goodEnv pageCloseFailWorld isoSample).1
    ∧ Ev.contextClose ∉ (mainRun goodEnv pageCloseFailWorld isoSample).1
    ∧ (mainRun goodEnv pageCloseFailWorld isoSample).2
      = MainOutcome.rejected "page close failed" :=
  teardown_short_circuit goodEnv pageCloseFailWorld isoSample rfl rfl rfl rfl

/-- C8, counterexample: when setup fails (here the BASE_URL variable is
absent) no page exists, the page close in the finally block throws a
TypeError, the exit call is never reached, and main rejects: the process does
not terminate with exit code 0 after teardown on this path. -/
theorem process_exit_zero_cex :
    (mainRun noBaseEnv allOkWorld isoSample).2
      = MainOutcome.rejected "TypeError: Cannot read properties of undefined (reading close)"
    ∧ Ev.exitZero ∉ (mainRun noBaseEnv allOkWorld isoSample).1 := by
  decide

/-- C8, amended: the process exits 0 after teardown whenever a page was
created and both closes succeed, whether the callback returned normally, the
callback raised, navigation or the readiness wait failed, or the failure
screenshot itself raised; when setup, the launch or the page creation fails,
or a close raises, the exit call is never reached and main rejects instead. -/
theorem process_exit_zero_amended (e : Env) (w : World) (nowIso : String)
    (hs : setup e = Except.ok ()) (hl : w.launchOk = true) (hn : w.newPageOk = true)
    (hp : w.pageCloseOk = true) (hc : w.contextCloseOk = true) :
    (mainRun e w nowIso).2 = MainOutcome.exitedZero
    ∧ Ev.exitZero ∈ (mainRun e w nowIso).1 := by
  have ht := mainTry_acquired e w hs hl hn
  have hf := mainFinally_ok w hp hc
  constructor
  · simp [mainRun, ht, hf]
  · simp [mainRun, ht, hf]

/-- C8, witness for the amended statement: the callback raises and the
failure screenshot raises too, yet the run exits 0. -/
theorem process_exit_zero_amended_witness :
    (mainRun goodEnv doubleFailWorld isoSample).2 = MainOutcome.exitedZero
    ∧ Ev.exitZero ∈ (mainRun goodEnv doubleFailWorld isoSample).1 :=
  process_exit_zero_amended goodEnv doubleFailWorld isoSample rfl rfl rfl rfl rfl

/-- C9: in every run whose acquisition steps succeed, the trace of main opens
with the launch, persistent context over the configured directory exactly when
the persistent-profile variable is truthy and ephemeral otherwise, followed by
the creation of the single page, the navigation to the resolved base URL, the
readiness waits, and only then the callback invocation; over the whole run
exactly one page is ever opened. -/
theorem session_acquisition_mode (e : Env) (w : World) (nowIso : String)
    (hs : setup e = Except.ok ()) (hl : w.launchOk = true) (hn : w.newPageOk = true)
    (hg : w.gotoOk = true) (hw : w.waitOk = true) :
    (mainRun e w nowIso).1
      = (if jsTruthy (USER_DATA_DIR e) then
           Ev.launchPersistentContext ((USER_DATA_DIR e).getD "")
         else Ev.launch)
        :: Ev.newPage
        :: Ev.goto ((BASE_URL e).getD "")
        :: ((waitEntirePageToLoad (DEFAULT_ADDITIONAL_WAIT_TIME_SECONDS e)).map Ev.pageWait
            ++ Ev.processing
            :: (catchEvents e w (mainTry e w) nowIso
                ++ (mainFinally w true true).events))
    ∧ (mainRun e w nowIso).1.count Ev.newPage = 1 := by
  have ht := mainTry_acquired e w hs hl hn
  have htt : tryTail e w
      = Ev.goto ((BASE_URL e).getD "")
        :: ((waitEntirePageToLoad (DEFAULT_ADDITIONAL_WAIT_TIME_SECONDS e)).map Ev.pageWait
            ++ [Ev.processing]) := by
    simp [tryTail, hg, hw]
  have hA : Ev.newPage ∉ tryTail e w := newPage_not_mem_tryTail e w
  have hC : Ev.newPage ∉ catchEvents e w
      ⟨launchEv e :: Ev.newPage :: tryTail e w, true, true, tryErr w⟩ nowIso :=
    newPage_not_mem_catchEvents e w _ nowIso
  have hF : Ev.newPage ∉ (mainFinally w true true).events :=
    newPage_not_mem_finally w true true
  have hne : (launchEv e == Ev.newPage) = false :=
    beq_eq_false_iff_ne.mpr (launchEv_ne_newPage e)
  constructor
  · simp [mainRun, ht, htt, launchEv, waitEntirePageToLoad, List.append_assoc]
  · simp [mainRun, ht, List.count_append, List.count_cons, hne,
      List.count_eq_zero.mpr hA, List.count_eq_zero.mpr hC,
      List.count_eq_zero.mpr hF]

/-- C9, witness at the concrete well-formed environment and the all-success
run. -/
theorem session_acquisition_mode_witness :
    (mainRun goodEnv allOkWorld isoSample).1
      = (if jsTruthy (USER_DATA_DIR goodEnv) then
           Ev.launchPersistentContext ((USER_DATA_DIR goodEnv).getD "")
         else Ev.launch)
        :: Ev.newPage
        :: Ev.goto ((BASE_URL goodEnv).getD "")
        :: ((waitEntirePageToLoad
              (DEFAULT_ADDITIONAL_WAIT_TIME_SECONDS goodEnv)).map Ev.pageWait
            ++ Ev.processing
            :: (catchEvents goodEnv allOkWorld (mainTry goodEnv allOkWorld) isoSample
                ++ (mainFinally allOkWorld true true).events))
    ∧ (mainRun goodEnv allOkWorld isoSample).1.count Ev.newPage = 1 :=
  session_acquisition_mode goodEnv allOkWorld isoSample rfl rfl rfl rfl rfl

end PlaywrightBase

